import Mathlib

/-!
Shallow embedding of the deployment-orchestrator Lambda handler
(src/temp-extract/src/lambda/deployment-orchestrator/index.js).

External services (S3, Lambda, ECS, CodePipeline) are modelled by a
World of oracle functions, each returning Except String (a rejected
promise carries its error message).  Every modelled network call is
also recorded in an ordered trace of Call values, so that theorems can
count report calls, fetch calls, and upload keys.
-/

namespace LambdaDeploy

/-- S3 coordinates, mirroring the shape of artifact.location.s3Location. -/
structure S3Location where
  bucketName : String
  objectKey : String
deriving DecidableEq, Repr

/-- The location wrapper of an artifact reference in the job event. -/
structure ArtifactLocation where
  s3Location : S3Location
deriving DecidableEq, Repr

/-- An input or output artifact reference from the CodePipeline job event. -/
structure ArtifactRef where
  name : String
  location : ArtifactLocation
deriving DecidableEq, Repr

/-- Result of s3.getObject: Body, Metadata, ContentType. -/
structure S3Object where
  body : String
  metadata : List (String × String)
  contentType : String
deriving DecidableEq, Repr

/-- Entry stored into the artifacts mapping by processArtifacts. -/
structure ArtifactPayload where
  data : String
  metadata : List (String × String)
  contentType : String
deriving DecidableEq, Repr

/-- jobData.actionConfiguration: may or may not carry a configuration object. -/
structure ActionConfiguration where
  configuration : Option (List (String × String))
deriving DecidableEq, Repr

/-- The data field of the CodePipeline job. -/
structure JobData where
  inputArtifacts : List ArtifactRef
  outputArtifacts : List ArtifactRef
  actionConfiguration : Option ActionConfiguration
deriving DecidableEq, Repr

/-- The CodePipeline job: an id and its data. -/
structure CPJob where
  id : String
  data : JobData
deriving DecidableEq, Repr

/-- The Lambda event; the CodePipeline.job field may be absent. -/
structure LambdaEvent where
  codePipelineJob : Option CPJob
deriving DecidableEq, Repr

/-- The process environment variables read by getDeploymentConfig. -/
structure EnvVars where
  DEPLOYMENT_TYPE : Option String
  TARGET_FUNCTION_NAME : Option String
  ENVIRONMENT : Option String
  AWS_REGION : Option String
deriving DecidableEq, Repr

/-- Result object of lambda.updateFunctionCode. -/
structure UpdateCodeResult where
  FunctionArn : String
  Version : String
  LastModified : String
deriving DecidableEq, Repr

/-- The service object inside the result of ecs.updateService. -/
structure EcsService where
  serviceArn : String
  taskDefinition : String
deriving DecidableEq, Repr

/-- Result object of ecs.updateService. -/
structure UpdateServiceResult where
  service : EcsService
deriving DecidableEq, Repr

/-- Result object of s3.upload. -/
structure UploadResult where
  Location : String
  ETag : String
deriving DecidableEq, Repr

/-- The deployment result returned by a backend.  The JS objects have
backend-specific fields, modelled here as optional fields that default
to none. -/
structure DeploymentResult where
  type : String
  functionArn : Option String := none
  version : Option String := none
  lastModified : Option String := none
  serviceArn : Option String := none
  taskDefinition : Option String := none
  location : Option String := none
  etag : Option String := none
deriving DecidableEq, Repr

/-- Output variables of putJobSuccessResult. -/
structure OutputVariables where
  deploymentStatus : String
  deploymentTime : String
  deployedVersion : String
deriving DecidableEq, Repr

/-- Failure details of putJobFailureResult. -/
structure FailureDetails where
  message : String
  type : String
deriving DecidableEq, Repr

/-- The deployment summary written to each output artifact location. -/
structure Summary where
  deploymentResult : DeploymentResult
  timestamp : String
  status : String
deriving DecidableEq, Repr

/-- One recorded external call, in program order. -/
inductive Call where
  | fetch (loc : S3Location)
  | codeUpdate (fn : Option String)
  | waitFunctionUpdated (fn : Option String)
  | configUpdate (fn : Option String)
  | ecsUpdate (cluster : String) (service : Option String)
  | s3Upload (bucket : Option String) (key : String)
  | putOutput (loc : S3Location) (summary : Summary)
  | reportSuccess (jobId : String) (vars : OutputVariables)
  | reportFailure (jobId : String) (message : String)
deriving DecidableEq, Repr

/-- The external world: one oracle per AWS call, the Date.now clock and
its ISO rendering.  Each oracle gives the outcome of that call when made
with the given arguments. -/
structure World where
  now : Nat
  nowIso : String
  getObject : S3Location → Except String S3Object
  updateFunctionCode : Option String → String → Except String UpdateCodeResult
  waitFunctionUpdated : Option String → Except String Unit
  updateFunctionConfiguration : Option String → Except String Unit
  updateService : String → Option String → Except String UpdateServiceResult
  s3UploadCall : Option String → String → String → Except String UploadResult
  putObject : S3Location → Summary → Except String Unit
  putJobSuccessResult : String → OutputVariables → Except String Unit
  putJobFailureResult : String → FailureDetails → Except String Unit

/-- JavaScript a || b for an optional string a: undefined and the empty
string are falsy and fall through to the default. -/
def jsOr (a : Option String) (b : String) : String :=
  match a with
  | none => b
  | some s => if s = "" then b else s

/-- Lookup in a JS-object association list (first occurrence wins;
jsAssign keeps at most one occurrence per key). -/
def jsGet {α : Type} (m : List (String × α)) (k : String) : Option α :=
  match m with
  | [] => none
  | (k', v) :: t => if k' = k then some v else jsGet t k

/-- JS object property assignment: overwrite the existing key in place,
or append the new key at the end. -/
def jsAssign {α : Type} (m : List (String × α)) (k : String) (v : α) :
    List (String × α) :=
  match m with
  | [] => [(k, v)]
  | (k', v') :: t => if k' = k then (k, v) :: t else (k', v') :: jsAssign t k v

/-- Object.assign(config, actionConfig): copy every source entry, in
order, onto the target. -/
def objectAssign {α : Type} (m : List (String × α)) (src : List (String × α)) :
    List (String × α) :=
  src.foldl (fun acc kv => jsAssign acc kv.1 kv.2) m

/-- The initial config object of getDeploymentConfig: four keys drawn
from the environment with defaults. -/
def baseConfig (env : EnvVars) : List (String × String) :=
  [("deploymentType", jsOr env.DEPLOYMENT_TYPE "lambda"),
   ("targetFunction", jsOr env.TARGET_FUNCTION_NAME "lambdadeploy-app"),
   ("environment", jsOr env.ENVIRONMENT "development"),
   ("region", jsOr env.AWS_REGION "us-east-1")]

/-- getDeploymentConfig: four defaulted keys from the environment, then
Object.assign of actionConfiguration.configuration when both are truthy. -/
def getDeploymentConfig (env : EnvVars) (jobData : JobData) :
    List (String × String) :=
  match jobData.actionConfiguration with
  | none => baseConfig env
  | some ac =>
    match ac.configuration with
    | none => baseConfig env
    | some actionConfig => objectAssign (baseConfig env) actionConfig

/-- processArtifacts loop body: fetch each input artifact in order,
storing it under its name; the first failed fetch aborts the loop. -/
def processArtifactsLoop (w : World) (acc : List (String × ArtifactPayload)) :
    List ArtifactRef →
    Except String (List (String × ArtifactPayload)) × List Call
  | [] => (.ok acc, [])
  | a :: rest =>
    let loc := a.location.s3Location
    match w.getObject loc with
    | .error e => (.error e, [.fetch loc])
    | .ok obj =>
      let payload : ArtifactPayload :=
        { data := obj.body, metadata := obj.metadata,
          contentType := obj.contentType }
      let r := processArtifactsLoop w (jsAssign acc a.name payload) rest
      (r.1, .fetch loc :: r.2)

/-- processArtifacts: resolve every input artifact reference into a
name-keyed mapping of payloads. -/
def processArtifacts (w : World) (inputArtifacts : List ArtifactRef) :
    Except String (List (String × ArtifactPayload)) × List Call :=
  processArtifactsLoop w [] inputArtifacts

/-- deployToLambda: resolve BuildArtifact with SourceOutput fallback,
update the function code, wait for the update, then (outside production)
update the function configuration; any error inside the try is wrapped
as a Lambda-deployment failure. -/
def deployToLambda (w : World) (config : List (String × String))
    (artifacts : List (String × ArtifactPayload)) :
    Except String DeploymentResult × List Call :=
  let targetFunction := jsGet config "targetFunction"
  match (jsGet artifacts "BuildArtifact").orElse
      (fun _ => jsGet artifacts "SourceOutput") with
  | none => (.error "No application artifact found for Lambda deployment", [])
  | some appArtifact =>
    match w.updateFunctionCode targetFunction appArtifact.data with
    | .error e =>
      (.error ("Lambda deployment failed: " ++ e), [.codeUpdate targetFunction])
    | .ok updateResult =>
      match w.waitFunctionUpdated targetFunction with
      | .error e =>
        (.error ("Lambda deployment failed: " ++ e),
         [.codeUpdate targetFunction, .waitFunctionUpdated targetFunction])
      | .ok _ =>
        let configStep : Except String Unit × List Call :=
          if jsGet config "environment" ≠ some "production" then
            match w.updateFunctionConfiguration targetFunction with
            | .error e => (.error e, [.configUpdate targetFunction])
            | .ok _ => (.ok (), [.configUpdate targetFunction])
          else (.ok (), [])
        match configStep with
        | (.error e, calls) =>
          (.error ("Lambda deployment failed: " ++ e),
           [.codeUpdate targetFunction, .waitFunctionUpdated targetFunction]
             ++ calls)
        | (.ok _, calls) =>
          (.ok { type := "lambda",
                 functionArn := some updateResult.FunctionArn,
                 version := some updateResult.Version,
                 lastModified := some updateResult.LastModified },
           [.codeUpdate targetFunction, .waitFunctionUpdated targetFunction]
             ++ calls)

/-- deployToECS: force a new rollout of the configured service; any
error is wrapped as an ECS-deployment failure. -/
def deployToECS (w : World) (config : List (String × String))
    (_artifacts : List (String × ArtifactPayload)) :
    Except String DeploymentResult × List Call :=
  let cluster := jsOr (jsGet config "clusterName") "default"
  let service := jsGet config "serviceName"
  match w.updateService cluster service with
  | .error e => (.error ("ECS deployment failed: " ++ e),
                 [.ecsUpdate cluster service])
  | .ok updateResult =>
    (.ok { type := "ecs",
           serviceArn := some updateResult.service.serviceArn,
           taskDefinition := some updateResult.service.taskDefinition },
     [.ecsUpdate cluster service])

/-- The object key used by deployToS3 for the uploaded artifact. -/
def s3DeployKey (now : Nat) : String :=
  "deployments/" ++ Nat.repr now ++ "/app.zip"

/-- deployToS3: resolve BuildArtifact with SourceOutput fallback and
upload it under a Date.now keyed path; any error inside the try is
wrapped as an S3-deployment failure. -/
def deployToS3 (w : World) (config : List (String × String))
    (artifacts : List (String × ArtifactPayload)) :
    Except String DeploymentResult × List Call :=
  match (jsGet artifacts "BuildArtifact").orElse
      (fun _ => jsGet artifacts "SourceOutput") with
  | none =>
    (.error
      ("S3 deployment failed: " ++ "No application artifact found for S3 deployment"),
     [])
  | some appArtifact =>
    let bucket := jsGet config "bucketName"
    let key := s3DeployKey w.now
    match w.s3UploadCall bucket key appArtifact.data with
    | .error e => (.error ("S3 deployment failed: " ++ e),
                   [.s3Upload bucket key])
    | .ok uploadResult =>
      (.ok { type := "s3",
             location := some uploadResult.Location,
             etag := some uploadResult.ETag },
       [.s3Upload bucket key])

/-- executeDeployment: closed switch over config.deploymentType. -/
def executeDeployment (w : World) (config : List (String × String))
    (artifacts : List (String × ArtifactPayload)) :
    Except String DeploymentResult × List Call :=
  match jsGet config "deploymentType" with
  | some t =>
    if t = "lambda" then deployToLambda w config artifacts
    else if t = "ecs" then deployToECS w config artifacts
    else if t = "s3" then deployToS3 w config artifacts
    else (.error ("Unsupported deployment type: " ++ t), [])
  | none => (.error ("Unsupported deployment type: " ++ "undefined"), [])

/-- updateOutputArtifacts: write the deployment summary to every
declared output artifact location, stopping at the first failed write. -/
def updateOutputArtifacts (w : World) (outputArtifacts : List ArtifactRef)
    (deploymentResult : DeploymentResult) :
    Except String Unit × List Call :=
  match outputArtifacts with
  | [] => (.ok (), [])
  | a :: rest =>
    let loc := a.location.s3Location
    let summary : Summary :=
      { deploymentResult := deploymentResult, timestamp := w.nowIso,
        status := "SUCCESS" }
    match w.putObject loc summary with
    | .error e => (.error e, [.putOutput loc summary])
    | .ok _ =>
      let r := updateOutputArtifacts w rest deploymentResult
      (r.1, .putOutput loc summary :: r.2)

/-- The pre-report portion of the handler try block: resolve config,
resolve artifacts, dispatch, and write output artifacts when declared. -/
def pipeline (env : EnvVars) (w : World) (job : CPJob) :
    Except String DeploymentResult × List Call :=
  let jobData := job.data
  let config := getDeploymentConfig env jobData
  match processArtifacts w jobData.inputArtifacts with
  | (.error e, tr) => (.error e, tr)
  | (.ok artifacts, tr1) =>
    match executeDeployment w config artifacts with
    | (.error e, tr2) => (.error e, tr1 ++ tr2)
    | (.ok deploymentResult, tr2) =>
      if jobData.outputArtifacts.length > 0 then
        match updateOutputArtifacts w jobData.outputArtifacts deploymentResult with
        | (.error e, tr3) => (.error e, tr1 ++ tr2 ++ tr3)
        | (.ok _, tr3) => (.ok deploymentResult, tr1 ++ tr2 ++ tr3)
      else (.ok deploymentResult, tr1 ++ tr2)

/-- The output variables attached to the success report. -/
def mkOutputVariables (w : World) (deploymentResult : DeploymentResult) :
    OutputVariables :=
  { deploymentStatus := "SUCCESS",
    deploymentTime := w.nowIso,
    deployedVersion := jsOr deploymentResult.version "unknown" }

/-- The 200 response body of a successful orchestration. -/
structure HandlerResponse where
  statusCode : Nat
  jobId : String
  result : DeploymentResult
deriving DecidableEq, Repr

/-- The whole try block of the handler: the pipeline followed by the
success report. -/
def tryBody (env : EnvVars) (w : World) (job : CPJob) :
    Except String HandlerResponse × List Call :=
  match pipeline env w job with
  | (.error e, tr) => (.error e, tr)
  | (.ok deploymentResult, tr) =>
    let vars := mkOutputVariables w deploymentResult
    match w.putJobSuccessResult job.id vars with
    | .ok _ =>
      (.ok { statusCode := 200, jobId := job.id, result := deploymentResult },
       tr ++ [.reportSuccess job.id vars])
    | .error e => (.error e, tr ++ [.reportSuccess job.id vars])

/-- The exported handler.  When the event has no CodePipeline.job field
the member access inside the try throws a TypeError and the catch block
skips the failure report and rethrows; when the field is present, any
error of the try block is routed to putJobFailureResult and rethrown
(a failed failure report is itself thrown instead). -/
def handler (env : EnvVars) (w : World) (event : LambdaEvent) :
    Except String HandlerResponse × List Call :=
  match event.codePipelineJob with
  | none =>
    (.error "TypeError: Cannot read properties of undefined (reading id)", [])
  | some job =>
    match tryBody env w job with
    | (.ok r, tr) => (.ok r, tr)
    | (.error e, tr) =>
      match w.putJobFailureResult job.id { message := e, type := "JobFailed" } with
      | .ok _ => (.error e, tr ++ [.reportFailure job.id e])
      | .error e2 => (.error e2, tr ++ [.reportFailure job.id e])

/-- Count of success reports in a trace. -/
def countSuccess (tr : List Call) : Nat :=
  tr.countP fun c => match c with
    | .reportSuccess _ _ => true
    | _ => false

/-- Count of failure reports in a trace. -/
def countFailure (tr : List Call) : Nat :=
  tr.countP fun c => match c with
    | .reportFailure _ _ => true
    | _ => false

/-- Count of artifact fetches in a trace. -/
def countFetch (tr : List Call) : Nat :=
  tr.countP fun c => match c with
    | .fetch _ => true
    | _ => false

/-- The keys of the S3 upload calls in a trace, in order. -/
def uploadKeys (tr : List Call) : List String :=
  tr.filterMap fun c => match c with
    | .s3Upload _ key => some key
    | _ => none

/-- Whether a call is one of the two terminal report calls. -/
def isReport (c : Call) : Bool :=
  match c with
  | .reportSuccess _ _ => true
  | .reportFailure _ _ => true
  | _ => false

/-- Last-occurrence lookup, matching how repeated Object.assign entries
resolve (the entry written last wins). -/
def lastGet {α : Type} (src : List (String × α)) (k : String) : Option α :=
  match src with
  | [] => none
  | (k', v) :: t =>
    match lastGet t k with
    | some w => some w
    | none => if k' = k then some v else none

/-- The configuration list carried by the job when both
actionConfiguration and its configuration field are truthy; empty
otherwise. -/
def actionCfgList (jobData : JobData) : List (String × String) :=
  match jobData.actionConfiguration with
  | none => []
  | some ac =>
    match ac.configuration with
    | none => []
    | some actionConfig => actionConfig

/-- Modelled from the words of the config-resolver contract, with the
JS truthiness of the environment layer made explicit: the
actionConfiguration layer wins for every key it carries, the
environment layer supplies each of the four recognized keys when the
variable is set to a nonempty string, and the hard-coded defaults come
last; keys outside the four recognized ones resolve only through the
actionConfiguration layer. -/
def specOverlay (env : EnvVars) (jobData : JobData) (k : String) :
    Option String :=
  match lastGet (actionCfgList jobData) k with
  | some v => some v
  | none =>
    if k = "deploymentType" then some (jsOr env.DEPLOYMENT_TYPE "lambda")
    else if k = "targetFunction" then
      some (jsOr env.TARGET_FUNCTION_NAME "lambdadeploy-app")
    else if k = "environment" then some (jsOr env.ENVIRONMENT "development")
    else if k = "region" then some (jsOr env.AWS_REGION "us-east-1")
    else none

/-- Environment with no variable set: every config key takes its
default. -/
def defaultEnv : EnvVars :=
  { DEPLOYMENT_TYPE := none, TARGET_FUNCTION_NAME := none,
    ENVIRONMENT := none, AWS_REGION := none }

/-- Environment whose DEPLOYMENT_TYPE variable is set to the empty
string. -/
def envEmptyType : EnvVars :=
  { DEPLOYMENT_TYPE := some "", TARGET_FUNCTION_NAME := none,
    ENVIRONMENT := none, AWS_REGION := none }

/-- A world in which every external call succeeds. -/
def okWorld : World :=
  { now := 1000,
    nowIso := "2026-01-01T00:00:00.000Z",
    getObject := fun _ =>
      .ok { body := "zipbytes", metadata := [], contentType := "application/zip" },
    updateFunctionCode := fun _ _ =>
      .ok { FunctionArn := "arn:aws:lambda:fn", Version := "7",
            LastModified := "2026-01-01" },
    waitFunctionUpdated := fun _ => .ok (),
    updateFunctionConfiguration := fun _ => .ok (),
    updateService := fun _ _ =>
      .ok { service := { serviceArn := "arn:aws:ecs:svc", taskDefinition := "td:1" } },
    s3UploadCall := fun _ _ _ =>
      .ok { Location := "https://bucket/key", ETag := "etag-1" },
    putObject := fun _ _ => .ok (),
    putJobSuccessResult := fun _ _ => .ok (),
    putJobFailureResult := fun _ _ => .ok () }

/-- A well-formed job carrying one BuildArtifact input and no output
artifacts. -/
def sampleJob : CPJob :=
  { id := "job-1",
    data := { inputArtifacts :=
                [{ name := "BuildArtifact",
                   location := { s3Location := { bucketName := "bkt", objectKey := "key" } } }],
              outputArtifacts := [],
              actionConfiguration := some { configuration := some [] } } }

/-- The sample job rerouted to an unsupported deployment type. -/
def pigeonJob : CPJob :=
  { id := "job-2",
    data := { inputArtifacts :=
                [{ name := "BuildArtifact",
                   location := { s3Location := { bucketName := "bkt", objectKey := "key" } } }],
              outputArtifacts := [],
              actionConfiguration :=
                some { configuration := some [("deploymentType", "carrier-pigeon")] } } }

/-- Lookup after a JS property assignment: the assigned key reads the
new value, every other key is untouched. -/
theorem jsGet_jsAssign {α : Type} (m : List (String × α)) (k q : String) (v : α) :
    jsGet (jsAssign m k v) q = if q = k then some v else jsGet m q := by
  induction m with
  | nil =>
    simp only [jsAssign, jsGet]
    by_cases h : q = k
    · rw [if_pos h.symm, if_pos h]
    · rw [if_neg (Ne.symm h), if_neg h]
  | cons hd t ih =>
    obtain ⟨k', v'⟩ := hd
    by_cases hk : k' = k <;> by_cases hq : k' = q <;> by_cases hqk : q = k <;>
      simp_all [jsAssign, jsGet]

/-- Lookup through Object.assign: the last source entry for the key
wins, and keys the source does not carry fall through to the target. -/
theorem jsGet_objectAssign {α : Type} (src : List (String × α)) :
    ∀ (m : List (String × α)) (k : String),
      jsGet (objectAssign m src) k =
        match lastGet src k with
        | some v => some v
        | none => jsGet m k := by
  induction src with
  | nil => intro m k; rfl
  | cons hd t ih =>
    intro m k
    obtain ⟨k', v'⟩ := hd
    show jsGet (objectAssign (jsAssign m k' v') t) k = _
    rw [ih]
    cases hlast : lastGet t k with
    | some w => simp [lastGet, hlast]
    | none =>
      simp only [lastGet, hlast]
      rw [jsGet_jsAssign]
      by_cases hq : k = k'
      · simp [hq]
      · simp [hq, Ne.symm hq]

/-- getDeploymentConfig is Object.assign of the job configuration list
over the base config. -/
theorem getDeploymentConfig_eq (env : EnvVars) (jobData : JobData) :
    getDeploymentConfig env jobData =
      objectAssign (baseConfig env) (actionCfgList jobData) := by
  unfold getDeploymentConfig actionCfgList
  cases jobData.actionConfiguration with
  | none => rfl
  | some ac =>
    obtain ⟨cfg⟩ := ac
    cases cfg <;> rfl

/-- Lookup in the initial config object, key by key. -/
theorem jsGet_baseConfig (env : EnvVars) (k : String) :
    jsGet (baseConfig env) k =
      (if k = "deploymentType" then some (jsOr env.DEPLOYMENT_TYPE "lambda")
       else if k = "targetFunction" then
         some (jsOr env.TARGET_FUNCTION_NAME "lambdadeploy-app")
       else if k = "environment" then some (jsOr env.ENVIRONMENT "development")
       else if k = "region" then some (jsOr env.AWS_REGION "us-east-1")
       else none) := by
  simp only [baseConfig, jsGet]
  by_cases h1 : k = "deploymentType"
  · rw [if_pos h1.symm, if_pos h1]
  · rw [if_neg (Ne.symm h1), if_neg h1]
    by_cases h2 : k = "targetFunction"
    · rw [if_pos h2.symm, if_pos h2]
    · rw [if_neg (Ne.symm h2), if_neg h2]
      by_cases h3 : k = "environment"
      · rw [if_pos h3.symm, if_pos h3]
      · rw [if_neg (Ne.symm h3), if_neg h3]
        by_cases h4 : k = "region"
        · rw [if_pos h4.symm, if_pos h4]
        · rw [if_neg (Ne.symm h4), if_neg h4]

/-- Claim C5 (amended): config resolution is the three-layer overlay
defaults < environment < actionConfiguration with JS truthiness in the
environment layer: for every key, the last actionConfiguration entry
wins when one exists (even an empty string), otherwise each of the four
recognized keys takes the environment variable when it is set to a
nonempty string and the hard-coded default when it is unset or empty,
and keys outside the four recognized ones resolve only through the
actionConfiguration layer (pass-through). -/
theorem getDeploymentConfig_overlay (env : EnvVars) (jobData : JobData)
    (k : String) :
    jsGet (getDeploymentConfig env jobData) k = specOverlay env jobData k := by
  rw [getDeploymentConfig_eq, jsGet_objectAssign]
  unfold specOverlay
  cases h : lastGet (actionCfgList jobData) k with
  | some v => rfl
  | none => exact jsGet_baseConfig env k

/-- Claim C5 counterexample: with DEPLOYMENT_TYPE set to the empty
string and no job override, the environment layer is the highest layer
that defines deploymentType, yet the resolved value is the default
"lambda", not the empty string the environment defined. -/
theorem getDeploymentConfig_emptyEnv_counterexample :
    envEmptyType.DEPLOYMENT_TYPE = some "" ∧
    jsGet (getDeploymentConfig envEmptyType sampleJob.data) "deploymentType"
      = some "lambda" ∧
    jsGet (getDeploymentConfig envEmptyType sampleJob.data) "deploymentType"
      ≠ some "" := by
  refine ⟨rfl, by decide, by decide⟩

/-- Decimal value of a digit-character list, most significant digit
first. -/
def digitsVal (l : List Char) : Nat :=
  l.foldl (fun a c => 10 * a + (c.toNat - 48)) 0

/-- Nat.toDigitsCore only prepends digits to its accumulator. -/
theorem toDigitsCore_append (b : Nat) (fuel : Nat) :
    ∀ (n : Nat) (ds : List Char),
      Nat.toDigitsCore b fuel n ds = Nat.toDigitsCore b fuel n [] ++ ds := by
  induction fuel with
  | zero => intro n ds; simp [Nat.toDigitsCore]
  | succ f ih =>
    intro n ds
    simp only [Nat.toDigitsCore]
    by_cases h : n / b = 0
    · simp [h]
    · rw [if_neg h, if_neg h, ih (n / b) (Nat.digitChar (n % b) :: ds),
        ih (n / b) [Nat.digitChar (n % b)], List.append_assoc]
      rfl

/-- Appending one digit multiplies the decimal value by ten. -/
theorem digitsVal_append (l : List Char) (d : Char) :
    digitsVal (l ++ [d]) = 10 * digitsVal l + (d.toNat - 48) := by
  simp [digitsVal, List.foldl_append]

/-- The character code of a decimal digit character recovers the digit. -/
theorem digitChar_sub (m : Nat) (h : m < 10) :
    (Nat.digitChar m).toNat - 48 = m := by
  interval_cases m <;> decide

/-- With enough fuel, the decimal value of the digit string of n is n. -/
theorem digitsVal_toDigitsCore :
    ∀ (fuel n : Nat), n < fuel →
      digitsVal (Nat.toDigitsCore 10 fuel n []) = n := by
  intro fuel
  induction fuel with
  | zero => intro n h; omega
  | succ f ih =>
    intro n h
    simp only [Nat.toDigitsCore]
    by_cases h0 : n / 10 = 0
    · rw [if_pos h0]
      have : digitsVal [Nat.digitChar (n % 10)] =
          (Nat.digitChar (n % 10)).toNat - 48 := by
        simp [digitsVal]
      rw [this, digitChar_sub (n % 10) (by omega)]
      omega
    · rw [if_neg h0, toDigitsCore_append, digitsVal_append,
        ih (n / 10) (by omega), digitChar_sub (n % 10) (by omega)]
      omega

/-- The decimal string representation of a natural number determines
the number. -/
theorem natRepr_inj {n m : Nat} (h : Nat.repr n = Nat.repr m) : n = m := by
  have hd : Nat.toDigits 10 n = Nat.toDigits 10 m := congrArg String.data h
  have h1 := digitsVal_toDigitsCore (n + 1) n (by omega)
  have h2 := digitsVal_toDigitsCore (m + 1) m (by omega)
  have h1' : digitsVal (Nat.toDigits 10 n) = n := h1
  have h2' : digitsVal (Nat.toDigits 10 m) = m := h2
  rw [hd] at h1'
  omega


/-- The deployment key determines the Date.now value that produced it. -/
theorem s3DeployKey_inj {t u : Nat} (h : s3DeployKey t = s3DeployKey u) :
    t = u := by
  have hd := congrArg String.data h
  simp only [s3DeployKey, String.data_append] at hd
  simp at hd
  exact natRepr_inj (String.ext hd)

/-- A static-artifact dispatch uploads either nothing (on a missing
artifact) or exactly one object, keyed by the Date.now clock alone. -/
theorem uploadKeys_deployToS3 (w : World) (config : List (String × String))
    (artifacts : List (String × ArtifactPayload)) :
    uploadKeys (deployToS3 w config artifacts).2 = [] ∨
    uploadKeys (deployToS3 w config artifacts).2 = [s3DeployKey w.now] := by
  rcases hl : (jsGet artifacts "BuildArtifact").orElse
      (fun _ => jsGet artifacts "SourceOutput") with _ | appArtifact
  · left; simp [deployToS3, hl, uploadKeys]
  · rcases hu : w.s3UploadCall (jsGet config "bucketName") (s3DeployKey w.now)
        appArtifact.data with e | r
    · right; simp [deployToS3, hl, hu, uploadKeys]
    · right; simp [deployToS3, hl, hu, uploadKeys]

/-- Claim C4 (amended): the static-artifact storage key is a function
of the millisecond clock alone, so the keys of two dispatches that both
upload are distinct exactly when their Date.now values are distinct;
two jobs dispatched within the same millisecond produce the same key
and the later upload overwrites the earlier one. -/
theorem s3_keys_distinct_iff_clock (w w' : World)
    (config artifacts config' artifacts') (k k' : String)
    (h : uploadKeys (deployToS3 w config artifacts).2 = [k])
    (h' : uploadKeys (deployToS3 w' config' artifacts').2 = [k']) :
    k ≠ k' ↔ w.now ≠ w'.now := by
  have hk : k = s3DeployKey w.now := by
    rcases uploadKeys_deployToS3 w config artifacts with hc | hc <;>
      rw [hc] at h
    · cases h
    · exact (List.cons.injEq _ _ _ _ ▸ h).1.symm
  have hk' : k' = s3DeployKey w'.now := by
    rcases uploadKeys_deployToS3 w' config' artifacts' with hc | hc <;>
      rw [hc] at h'
    · cases h'
    · exact (List.cons.injEq _ _ _ _ ▸ h').1.symm
  subst hk hk'
  constructor
  · intro hne heq
    exact hne (by rw [heq])
  · intro hne heq
    exact hne (s3DeployKey_inj heq)

/-- Action configuration routing a job to the static-artifact backend. -/
def s3ActionConfig : List (String × String) :=
  [("deploymentType", "s3"), ("bucketName", "site-bucket")]

/-- A job routed to the static-artifact backend. -/
def s3JobA : CPJob :=
  { id := "job-s3-a",
    data := { inputArtifacts :=
                [{ name := "BuildArtifact",
                   location := { s3Location := { bucketName := "bkt", objectKey := "key-a" } } }],
              outputArtifacts := [],
              actionConfiguration := some { configuration := some s3ActionConfig } } }

/-- A second, distinct job routed to the static-artifact backend. -/
def s3JobB : CPJob :=
  { id := "job-s3-b",
    data := { inputArtifacts :=
                [{ name := "BuildArtifact",
                   location := { s3Location := { bucketName := "bkt", objectKey := "key-b" } } }],
              outputArtifacts := [],
              actionConfiguration := some { configuration := some s3ActionConfig } } }

/-- Claim C4 counterexample: two distinct jobs dispatched in the same
process at the same Date.now millisecond produce the same storage key,
so the second upload overwrites the first. -/
theorem s3_key_collision_counterexample :
    s3JobA ≠ s3JobB ∧
    uploadKeys (handler defaultEnv okWorld { codePipelineJob := some s3JobA }).2
      = ["deployments/1000/app.zip"] ∧
    uploadKeys (handler defaultEnv okWorld { codePipelineJob := some s3JobB }).2
      = ["deployments/1000/app.zip"] := by
  refine ⟨by decide, by decide, by decide⟩

/-- The all-success world with its clock moved to a given millisecond. -/
def okWorldAt (t : Nat) : World := { okWorld with now := t }

/-- Witness for the amended C4 theorem: dispatches at milliseconds 1
and 2 satisfy its hypotheses, and their keys differ exactly because the
clock values differ. -/
theorem s3_keys_distinct_iff_clock_witness :
    uploadKeys (deployToS3 (okWorldAt 1)
      [("bucketName", "site-bucket")]
      [("BuildArtifact", { data := "z", metadata := [], contentType := "application/zip" })]).2
      = ["deployments/1/app.zip"] ∧
    uploadKeys (deployToS3 (okWorldAt 2)
      [("bucketName", "site-bucket")]
      [("BuildArtifact", { data := "z", metadata := [], contentType := "application/zip" })]).2
      = ["deployments/2/app.zip"] ∧
    (("deployments/1/app.zip" ≠ "deployments/2/app.zip") ↔ ((1 : Nat) ≠ 2)) :=
  ⟨by decide, by decide,
   s3_keys_distinct_iff_clock (okWorldAt 1) (okWorldAt 2)
     [("bucketName", "site-bucket")]
     [("BuildArtifact", { data := "z", metadata := [], contentType := "application/zip" })]
     [("bucketName", "site-bucket")]
     [("BuildArtifact", { data := "z", metadata := [], contentType := "application/zip" })]
     "deployments/1/app.zip" "deployments/2/app.zip" (by decide) (by decide)⟩

theorem countSuccess_append (a b : List Call) :
    countSuccess (a ++ b) = countSuccess a + countSuccess b := by
  simp [countSuccess, List.countP_append]

theorem countFailure_append (a b : List Call) :
    countFailure (a ++ b) = countFailure a + countFailure b := by
  simp [countFailure, List.countP_append]

theorem countFetch_append (a b : List Call) :
    countFetch (a ++ b) = countFetch a + countFetch b := by
  simp [countFetch, List.countP_append]

/-- The artifact-resolution loop makes no report calls. -/
theorem processArtifactsLoop_noReport (w : World) (l : List ArtifactRef) :
    ∀ acc, countSuccess (processArtifactsLoop w acc l).2 = 0 ∧
      countFailure (processArtifactsLoop w acc l).2 = 0 := by
  induction l with
  | nil => intro acc; simp [processArtifactsLoop, countSuccess, countFailure]
  | cons a t ih =>
    intro acc
    simp only [processArtifactsLoop]
    rcases hobj : w.getObject a.location.s3Location with e | obj
    · simp [countSuccess, countFailure]
    · have := ih (jsAssign acc a.name
        { data := obj.body, metadata := obj.metadata, contentType := obj.contentType })
      simp [countSuccess, countFailure, List.countP_cons] at this ⊢
      exact this

/-- processArtifacts makes no report calls. -/
theorem processArtifacts_noReport (w : World) (l : List ArtifactRef) :
    countSuccess (processArtifacts w l).2 = 0 ∧
    countFailure (processArtifacts w l).2 = 0 :=
  processArtifactsLoop_noReport w l []

/-- The function-update backend makes no report calls. -/
theorem deployToLambda_noReport (w : World) (config : List (String × String))
    (artifacts : List (String × ArtifactPayload)) :
    countSuccess (deployToLambda w config artifacts).2 = 0 ∧
    countFailure (deployToLambda w config artifacts).2 = 0 := by
  rcases hl : (jsGet artifacts "BuildArtifact").orElse
      (fun _ => jsGet artifacts "SourceOutput") with _ | app
  · simp [deployToLambda, hl, countSuccess, countFailure]
  · rcases hc : w.updateFunctionCode (jsGet config "targetFunction") app.data
        with e | ur
    · simp [deployToLambda, hl, hc, countSuccess, countFailure]
    · rcases hw : w.waitFunctionUpdated (jsGet config "targetFunction") with e | u
      · simp [deployToLambda, hl, hc, hw, countSuccess, countFailure]
      · by_cases he : jsGet config "environment" ≠ some "production"
        · rcases hcf : w.updateFunctionConfiguration (jsGet config "targetFunction")
              with e | u2
          · simp [deployToLambda, hl, hc, hw, he, hcf, countSuccess, countFailure]
          · simp [deployToLambda, hl, hc, hw, he, hcf, countSuccess, countFailure]
        · simp [deployToLambda, hl, hc, hw, he, countSuccess, countFailure]

/-- The container-service backend makes no report calls. -/
theorem deployToECS_noReport (w : World) (config : List (String × String))
    (artifacts : List (String × ArtifactPayload)) :
    countSuccess (deployToECS w config artifacts).2 = 0 ∧
    countFailure (deployToECS w config artifacts).2 = 0 := by
  rcases hu : w.updateService (jsOr (jsGet config "clusterName") "default")
      (jsGet config "serviceName") with e | r
  · simp [deployToECS, hu, countSuccess, countFailure]
  · simp [deployToECS, hu, countSuccess, countFailure]

/-- The static-artifact backend makes no report calls. -/
theorem deployToS3_noReport (w : World) (config : List (String × String))
    (artifacts : List (String × ArtifactPayload)) :
    countSuccess (deployToS3 w config artifacts).2 = 0 ∧
    countFailure (deployToS3 w config artifacts).2 = 0 := by
  rcases hl : (jsGet artifacts "BuildArtifact").orElse
      (fun _ => jsGet artifacts "SourceOutput") with _ | app
  · simp [deployToS3, hl, countSuccess, countFailure]
  · rcases hu : w.s3UploadCall (jsGet config "bucketName") (s3DeployKey w.now)
        app.data with e | r
    · simp [deployToS3, hl, hu, countSuccess, countFailure]
    · simp [deployToS3, hl, hu, countSuccess, countFailure]

/-- The backend dispatcher makes no report calls. -/
theorem executeDeployment_noReport (w : World) (config : List (String × String))
    (artifacts : List (String × ArtifactPayload)) :
    countSuccess (executeDeployment w config artifacts).2 = 0 ∧
    countFailure (executeDeployment w config artifacts).2 = 0 := by
  rcases ht : jsGet config "deploymentType" with _ | t
  · simp [executeDeployment, ht, countSuccess, countFailure]
  · by_cases h1 : t = "lambda"
    · simpa [executeDeployment, ht, h1] using deployToLambda_noReport w config artifacts
    · by_cases h2 : t = "ecs"
      · simpa [executeDeployment, ht, h1, h2] using deployToECS_noReport w config artifacts
      · by_cases h3 : t = "s3"
        · simpa [executeDeployment, ht, h1, h2, h3] using deployToS3_noReport w config artifacts
        · simp [executeDeployment, ht, h1, h2, h3, countSuccess, countFailure]

/-- The output-artifact writer makes no report calls. -/
theorem updateOutputArtifacts_noReport (w : World) (r : DeploymentResult) :
    ∀ outs, countSuccess (updateOutputArtifacts w outs r).2 = 0 ∧
      countFailure (updateOutputArtifacts w outs r).2 = 0 := by
  intro outs
  induction outs with
  | nil => simp [updateOutputArtifacts, countSuccess, countFailure]
  | cons a t ih =>
    simp only [updateOutputArtifacts]
    rcases hp : w.putObject a.location.s3Location
        { deploymentResult := r, timestamp := w.nowIso, status := "SUCCESS" }
        with e | u
    · simp [countSuccess, countFailure]
    · simp [countSuccess, countFailure, List.countP_cons] at ih ⊢
      exact ih

/-- The whole pre-report pipeline makes no report calls. -/
theorem pipeline_noReport (env : EnvVars) (w : World) (job : CPJob) :
    countSuccess (pipeline env w job).2 = 0 ∧
    countFailure (pipeline env w job).2 = 0 := by
  simp only [pipeline]
  rcases hpa : processArtifacts w job.data.inputArtifacts with ⟨res1, tr1⟩
  have h1 : countSuccess tr1 = 0 ∧ countFailure tr1 = 0 := by
    have := processArtifacts_noReport w job.data.inputArtifacts
    rwa [hpa] at this
  cases res1 with
  | error e => exact h1
  | ok artifacts =>
    rcases hex : executeDeployment w (getDeploymentConfig env job.data) artifacts
        with ⟨res2, tr2⟩
    have h2 : countSuccess tr2 = 0 ∧ countFailure tr2 = 0 := by
      have := executeDeployment_noReport w (getDeploymentConfig env job.data) artifacts
      rwa [hex] at this
    cases res2 with
    | error e =>
      simp [hex, countSuccess_append, countFailure_append, h1.1, h1.2, h2.1, h2.2]
    | ok r =>
      by_cases hout : job.data.outputArtifacts.length > 0
      · rcases hup : updateOutputArtifacts w job.data.outputArtifacts r with ⟨res3, tr3⟩
        have h3 : countSuccess tr3 = 0 ∧ countFailure tr3 = 0 := by
          have := updateOutputArtifacts_noReport w r job.data.outputArtifacts
          rwa [hup] at this
        cases res3 <;>
          simp [hex, hup, hout, countSuccess_append, countFailure_append,
            h1.1, h1.2, h2.1, h2.2, h3.1, h3.2]
      · simp [hex, hout, countSuccess_append, countFailure_append,
          h1.1, h1.2, h2.1, h2.2]

/-- A trace with no success reports contains no success-report call. -/
theorem reportSuccess_not_mem {tr : List Call} (h : countSuccess tr = 0)
    (jid : String) (vars : OutputVariables) :
    Call.reportSuccess jid vars ∉ tr := by
  intro hmem
  have := List.countP_eq_zero.mp h _ hmem
  simp at this

/-- Claim C1 (amended): for every well-formed job event, at least one
and at most two terminal report calls are attempted, with at most one
success report and at most one failure report; two reports happen only
in the one case the original claim excludes wrongly: when the pipeline
succeeded and the success report call itself failed, the catch block
additionally attempts a failure report, so that job sees both a success
and a failure report.  In every other case exactly one report call is
attempted. -/
theorem handler_exactly_one_report (env : EnvVars) (w : World) (job : CPJob) :
    countSuccess (handler env w { codePipelineJob := some job }).2 ≤ 1 ∧
    countFailure (handler env w { codePipelineJob := some job }).2 ≤ 1 ∧
    1 ≤ countSuccess (handler env w { codePipelineJob := some job }).2 +
        countFailure (handler env w { codePipelineJob := some job }).2 ∧
    (countSuccess (handler env w { codePipelineJob := some job }).2 +
        countFailure (handler env w { codePipelineJob := some job }).2 = 2 →
      ∃ r e, (pipeline env w job).1 = .ok r ∧
        w.putJobSuccessResult job.id (mkOutputVariables w r) = .error e) := by
  have hnr := pipeline_noReport env w job
  rcases hp : pipeline env w job with ⟨res, tr0⟩
  rw [hp] at hnr
  obtain ⟨hS, hF⟩ := hnr
  cases res with
  | error e =>
    have ht : tryBody env w job = (.error e, tr0) := by simp [tryBody, hp]
    rcases hf : w.putJobFailureResult job.id { message := e, type := "JobFailed" }
        with e2 | u
    all_goals {
      have htr : (handler env w { codePipelineJob := some job }).2 =
          tr0 ++ [Call.reportFailure job.id e] := by
        simp [handler, ht, hf]
      have c1 : countSuccess (handler env w { codePipelineJob := some job }).2 = 0 := by
        rw [htr, countSuccess_append, hS]; simp [countSuccess]
      have c2 : countFailure (handler env w { codePipelineJob := some job }).2 = 1 := by
        rw [htr, countFailure_append, hF]; simp [countFailure]
      refine ⟨by omega, by omega, by omega, ?_⟩
      intro h
      rw [c1, c2] at h
      exact absurd h (by decide)
    }
  | ok r =>
    rcases hs : w.putJobSuccessResult job.id (mkOutputVariables w r) with e | u
    · -- success report itself fails: both reports are attempted
      have ht : tryBody env w job =
          (.error e, tr0 ++ [Call.reportSuccess job.id (mkOutputVariables w r)]) := by
        simp [tryBody, hp, hs]
      rcases hf : w.putJobFailureResult job.id { message := e, type := "JobFailed" }
          with e2 | u
      all_goals {
        have htr : (handler env w { codePipelineJob := some job }).2 =
            (tr0 ++ [Call.reportSuccess job.id (mkOutputVariables w r)]) ++
              [Call.reportFailure job.id e] := by
          simp [handler, ht, hf]
        have c1 : countSuccess (handler env w { codePipelineJob := some job }).2 = 1 := by
          rw [htr, countSuccess_append, countSuccess_append, hS]; simp [countSuccess]
        have c2 : countFailure (handler env w { codePipelineJob := some job }).2 = 1 := by
          rw [htr, countFailure_append, countFailure_append, hF]; simp [countFailure]
        refine ⟨by omega, by omega, by omega, ?_⟩
        intro _
        exact ⟨r, e, rfl, hs⟩
      }
    · have ht : tryBody env w job =
          (.ok { statusCode := 200, jobId := job.id, result := r },
           tr0 ++ [Call.reportSuccess job.id (mkOutputVariables w r)]) := by
        simp [tryBody, hp, hs]
      have htr : (handler env w { codePipelineJob := some job }).2 =
          tr0 ++ [Call.reportSuccess job.id (mkOutputVariables w r)] := by
        simp [handler, ht]
      have c1 : countSuccess (handler env w { codePipelineJob := some job }).2 = 1 := by
        rw [htr, countSuccess_append, hS]; simp [countSuccess]
      have c2 : countFailure (handler env w { codePipelineJob := some job }).2 = 0 := by
        rw [htr, countFailure_append, hF]; simp [countFailure]
      refine ⟨by omega, by omega, by omega, ?_⟩
      intro h
      rw [c1, c2] at h
      exact absurd h (by decide)

/-- Witness for the amended C1 theorem at a concrete job and world. -/
theorem handler_exactly_one_report_witness :
    countSuccess (handler defaultEnv okWorld { codePipelineJob := some sampleJob }).2 ≤ 1 ∧
    countFailure (handler defaultEnv okWorld { codePipelineJob := some sampleJob }).2 ≤ 1 ∧
    1 ≤ countSuccess (handler defaultEnv okWorld { codePipelineJob := some sampleJob }).2 +
        countFailure (handler defaultEnv okWorld { codePipelineJob := some sampleJob }).2 ∧
    (countSuccess (handler defaultEnv okWorld { codePipelineJob := some sampleJob }).2 +
        countFailure (handler defaultEnv okWorld { codePipelineJob := some sampleJob }).2 = 2 →
      ∃ r e, (pipeline defaultEnv okWorld sampleJob).1 = .ok r ∧
        okWorld.putJobSuccessResult sampleJob.id
          (mkOutputVariables okWorld r) = .error e) :=
  handler_exactly_one_report defaultEnv okWorld sampleJob

/-- The all-success world whose success-report endpoint is down. -/
def reportFailWorld : World :=
  { okWorld with putJobSuccessResult := fun _ _ => .error "report down" }

/-- Claim C1 counterexample: when the pipeline succeeds but the success
report call itself fails, the handler attempts both a success report
and a failure report for the same job, violating the
never-both-reports half of the claim. -/
theorem handler_double_report_counterexample :
    countSuccess (handler defaultEnv reportFailWorld
      { codePipelineJob := some sampleJob }).2 = 1 ∧
    countFailure (handler defaultEnv reportFailWorld
      { codePipelineJob := some sampleJob }).2 = 1 := by
  refine ⟨by decide, by decide⟩

/-- Whenever the pipeline fails, the handler trace is the pipeline
trace followed by exactly one failure-report attempt, whether or not
the failure report call itself succeeds. -/
theorem handler_trace_of_pipeline_error (env : EnvVars) (w : World) (job : CPJob)
    (e : String) (tr0 : List Call)
    (hp : pipeline env w job = (.error e, tr0)) :
    (handler env w { codePipelineJob := some job }).2 =
      tr0 ++ [Call.reportFailure job.id e] := by
  have ht : tryBody env w job = (.error e, tr0) := by simp [tryBody, hp]
  rcases hf : w.putJobFailureResult job.id { message := e, type := "JobFailed" }
      with e2 | u <;> simp [handler, ht, hf]

/-- Whenever the pipeline fails, the handler attempts no success report
and exactly one failure report. -/
theorem counts_of_pipeline_error (env : EnvVars) (w : World) (job : CPJob)
    (e : String) (tr0 : List Call)
    (hp : pipeline env w job = (.error e, tr0)) :
    countSuccess (handler env w { codePipelineJob := some job }).2 = 0 ∧
    countFailure (handler env w { codePipelineJob := some job }).2 = 1 := by
  have htr := handler_trace_of_pipeline_error env w job e tr0 hp
  have hnr := pipeline_noReport env w job
  rw [hp] at hnr
  constructor
  · rw [htr, countSuccess_append, hnr.1]; simp [countSuccess]
  · rw [htr, countFailure_append, hnr.2]; simp [countFailure]

/-- When the pipeline and the success-report call both succeed, the
handler trace is the pipeline trace followed by the success report. -/
theorem handler_trace_of_success (env : EnvVars) (w : World) (job : CPJob)
    (r : DeploymentResult) (tr0 : List Call) (u : Unit)
    (hp : pipeline env w job = (.ok r, tr0))
    (hs : w.putJobSuccessResult job.id (mkOutputVariables w r) = .ok u) :
    (handler env w { codePipelineJob := some job }).2 =
      tr0 ++ [Call.reportSuccess job.id (mkOutputVariables w r)] := by
  have ht : tryBody env w job =
      (.ok { statusCode := 200, jobId := job.id, result := r },
       tr0 ++ [Call.reportSuccess job.id (mkOutputVariables w r)]) := by
    simp [tryBody, hp, hs]
  simp [handler, ht]

/-- When the pipeline succeeds but the success-report call fails, the
handler trace records the success-report attempt followed by a
failure-report attempt. -/
theorem handler_trace_of_successReportFail (env : EnvVars) (w : World)
    (job : CPJob) (r : DeploymentResult) (tr0 : List Call) (e : String)
    (hp : pipeline env w job = (.ok r, tr0))
    (hs : w.putJobSuccessResult job.id (mkOutputVariables w r) = .error e) :
    (handler env w { codePipelineJob := some job }).2 =
      (tr0 ++ [Call.reportSuccess job.id (mkOutputVariables w r)]) ++
        [Call.reportFailure job.id e] := by
  have ht : tryBody env w job =
      (.error e, tr0 ++ [Call.reportSuccess job.id (mkOutputVariables w r)]) := by
    simp [tryBody, hp, hs]
  rcases hf : w.putJobFailureResult job.id { message := e, type := "JobFailed" }
      with e2 | u <;> simp [handler, ht, hf]

/-- The all-success world whose function-configuration update fails. -/
def configFailWorld : World :=
  { okWorld with updateFunctionConfiguration := fun _ => .error "config boom" }

/-- The artifact mapping produced for the sample job in okWorld. -/
def sampleArtifacts : List (String × ArtifactPayload) :=
  [("BuildArtifact",
    { data := "zipbytes", metadata := [], contentType := "application/zip" })]

/-- Claim C2 (amended): in the function-update backend, outside the
production tier, a failure of the secondary environment-variable
configuration update does fail the job: the error is caught by the
backend catch block, wrapped as a Lambda-deployment failure, and
propagated, so the job is reported as failed rather than succeeding
with the code-update result. -/
theorem deployToLambda_configFailure_fails_job (w : World)
    (config : List (String × String)) (artifacts : List (String × ArtifactPayload))
    (appArtifact : ArtifactPayload) (ur : UpdateCodeResult) (e : String)
    (hl : (jsGet artifacts "BuildArtifact").orElse
      (fun _ => jsGet artifacts "SourceOutput") = some appArtifact)
    (hc : w.updateFunctionCode (jsGet config "targetFunction") appArtifact.data = .ok ur)
    (hw : w.waitFunctionUpdated (jsGet config "targetFunction") = .ok ())
    (he : jsGet config "environment" ≠ some "production")
    (hcf : w.updateFunctionConfiguration (jsGet config "targetFunction") = .error e) :
    (deployToLambda w config artifacts).1 =
      .error ("Lambda deployment failed: " ++ e) := by
  simp [deployToLambda, hl, hc, hw, he, hcf]

/-- Witness for the amended C2 theorem at a concrete world and config. -/
theorem deployToLambda_configFailure_fails_job_witness :
    (deployToLambda configFailWorld (getDeploymentConfig defaultEnv sampleJob.data)
      sampleArtifacts).1 = .error ("Lambda deployment failed: " ++ "config boom") :=
  deployToLambda_configFailure_fails_job configFailWorld
    (getDeploymentConfig defaultEnv sampleJob.data) sampleArtifacts
    { data := "zipbytes", metadata := [], contentType := "application/zip" }
    { FunctionArn := "arn:aws:lambda:fn", Version := "7", LastModified := "2026-01-01" }
    "config boom" (by decide) (by rfl) (by rfl) (by decide) (by rfl)

/-- Claim C2 counterexample: with the sample job in the development
environment, the code update and the wait both succeed, yet a failing
configuration update makes the backend return an error instead of the
code-update DeploymentResult, so the claim that the configuration
failure is only logged is false. -/
theorem deployToLambda_configFailure_counterexample :
    jsGet (getDeploymentConfig defaultEnv sampleJob.data) "environment"
      = some "development" ∧
    configFailWorld.updateFunctionCode (some "lambdadeploy-app") "zipbytes"
      = .ok { FunctionArn := "arn:aws:lambda:fn", Version := "7",
              LastModified := "2026-01-01" } ∧
    (deployToLambda configFailWorld (getDeploymentConfig defaultEnv sampleJob.data)
      sampleArtifacts).1 = .error ("Lambda deployment failed: " ++ "config boom") := by
  refine ⟨by decide, by rfl, by rfl⟩

/-- Claim C9: an event without the CodePipeline.job field makes the
handler raise the member-access error to its caller, with an empty call
trace: neither report call is attempted. -/
theorem handler_missing_job_field (env : EnvVars) (w : World) :
    (handler env w { codePipelineJob := none }).2 = [] ∧
    countSuccess (handler env w { codePipelineJob := none }).2 = 0 ∧
    countFailure (handler env w { codePipelineJob := none }).2 = 0 ∧
    ∃ e, (handler env w { codePipelineJob := none }).1 = .error e :=
  ⟨rfl, rfl, rfl, ⟨_, rfl⟩⟩

/-- Whether the fetch of one artifact reference succeeds in a world. -/
def fetchOk (w : World) (a : ArtifactRef) : Bool :=
  match w.getObject a.location.s3Location with
  | .ok _ => true
  | .error _ => false

/-- When every fetch succeeds, the artifact loop returns a mapping and
its trace is exactly one fetch per input reference, in order. -/
theorem processArtifactsLoop_allOk (w : World) (l : List ArtifactRef)
    (hok : ∀ a ∈ l, fetchOk w a = true) :
    ∀ acc, ∃ m, processArtifactsLoop w acc l =
      (.ok m, l.map fun a => Call.fetch a.location.s3Location) := by
  induction l with
  | nil => intro acc; exact ⟨acc, rfl⟩
  | cons a t ih =>
    intro acc
    have ha := hok a (by simp)
    rcases hobj : w.getObject a.location.s3Location with e | obj
    · simp [fetchOk, hobj] at ha
    · obtain ⟨m, hm⟩ := ih (fun b hb => hok b (by simp [hb]))
        (jsAssign acc a.name
          { data := obj.body, metadata := obj.metadata, contentType := obj.contentType })
      refine ⟨m, ?_⟩
      simp [processArtifactsLoop, hobj, hm]

/-- A trace consisting only of fetches counts one fetch per element. -/
theorem countFetch_map_fetch (l : List ArtifactRef) :
    countFetch (l.map fun a => Call.fetch a.location.s3Location) = l.length := by
  induction l with
  | nil => rfl
  | cons a t ih => simp [countFetch, List.countP_cons] at ih ⊢

/-- Claim C3 (amended): an absent or unsupported deployment-type value
is not rejected during config resolution; it is only rejected by the
dispatcher switch, after artifact resolution has already run.  With an
unsupported type and all fetches succeeding, the handler performs one
fetch per input artifact, then fails the job with the
unsupported-deployment-type error and attempts exactly one failure
report and no success report. -/
theorem unsupportedType_fetches_then_fails (env : EnvVars) (w : World)
    (job : CPJob) (t : String)
    (hcfg : jsGet (getDeploymentConfig env job.data) "deploymentType" = some t)
    (h1 : t ≠ "lambda") (h2 : t ≠ "ecs") (h3 : t ≠ "s3")
    (hok : ∀ a ∈ job.data.inputArtifacts, fetchOk w a = true) :
    countFetch (handler env w { codePipelineJob := some job }).2 =
      job.data.inputArtifacts.length ∧
    Call.reportFailure job.id ("Unsupported deployment type: " ++ t) ∈
      (handler env w { codePipelineJob := some job }).2 ∧
    countSuccess (handler env w { codePipelineJob := some job }).2 = 0 ∧
    countFailure (handler env w { codePipelineJob := some job }).2 = 1 := by
  obtain ⟨m, hm⟩ := processArtifactsLoop_allOk w job.data.inputArtifacts hok []
  have hpa : processArtifacts w job.data.inputArtifacts =
      (.ok m, job.data.inputArtifacts.map fun a => Call.fetch a.location.s3Location) := hm
  have hexec : executeDeployment w (getDeploymentConfig env job.data) m =
      (.error ("Unsupported deployment type: " ++ t), []) := by
    simp [executeDeployment, hcfg, h1, h2, h3]
  have hpipe : pipeline env w job =
      (.error ("Unsupported deployment type: " ++ t),
       job.data.inputArtifacts.map fun a => Call.fetch a.location.s3Location) := by
    simp only [pipeline]
    rw [hpa]
    simp [hexec]
  have htr := handler_trace_of_pipeline_error env w job
    ("Unsupported deployment type: " ++ t)
    (job.data.inputArtifacts.map fun a => Call.fetch a.location.s3Location) hpipe
  have hcounts := counts_of_pipeline_error env w job
    ("Unsupported deployment type: " ++ t)
    (job.data.inputArtifacts.map fun a => Call.fetch a.location.s3Location) hpipe
  refine ⟨?_, ?_, hcounts.1, hcounts.2⟩
  · rw [htr, countFetch_append, countFetch_map_fetch]
    simp [countFetch]
  · rw [htr]
    simp

/-- Witness for the amended C3 theorem: the carrier-pigeon job with one
input artifact performs one fetch and one failure report. -/
theorem unsupportedType_fetches_then_fails_witness :
    countFetch (handler defaultEnv okWorld { codePipelineJob := some pigeonJob }).2
      = pigeonJob.data.inputArtifacts.length ∧
    Call.reportFailure pigeonJob.id
      ("Unsupported deployment type: " ++ "carrier-pigeon") ∈
      (handler defaultEnv okWorld { codePipelineJob := some pigeonJob }).2 ∧
    countSuccess (handler defaultEnv okWorld { codePipelineJob := some pigeonJob }).2 = 0 ∧
    countFailure (handler defaultEnv okWorld { codePipelineJob := some pigeonJob }).2 = 1 :=
  unsupportedType_fetches_then_fails defaultEnv okWorld pigeonJob "carrier-pigeon"
    (by decide) (by decide) (by decide) (by decide) (by decide)

/-- Claim C3 counterexample: for the carrier-pigeon job the artifact
resolver observes one fetch call, not zero, and the job fails with the
dispatcher error rather than during config resolution. -/
theorem unsupportedType_fetch_counterexample :
    countFetch (handler defaultEnv okWorld { codePipelineJob := some pigeonJob }).2 = 1 ∧
    (handler defaultEnv okWorld { codePipelineJob := some pigeonJob }).1 =
      .error ("Unsupported deployment type: " ++ "carrier-pigeon") := by
  refine ⟨by decide, by rfl⟩

/-- When some fetch fails, the artifact loop returns an error. -/
theorem processArtifactsLoop_someFail (w : World) (l : List ArtifactRef)
    (hbad : ∃ a ∈ l, fetchOk w a = false) :
    ∀ acc, ∃ e, (processArtifactsLoop w acc l).1 = .error e := by
  induction l with
  | nil => obtain ⟨a, ha, _⟩ := hbad; cases ha
  | cons a t ih =>
    intro acc
    rcases hobj : w.getObject a.location.s3Location with e | obj
    · exact ⟨e, by simp [processArtifactsLoop, hobj]⟩
    · obtain ⟨b, hb, hfb⟩ := hbad
      rcases List.mem_cons.mp hb with rfl | hbt
      · rw [fetchOk, hobj] at hfb; cases hfb
      · obtain ⟨e, he⟩ := ih ⟨b, hbt, hfb⟩ (jsAssign acc a.name
          { data := obj.body, metadata := obj.metadata, contentType := obj.contentType })
        exact ⟨e, by simp [processArtifactsLoop, hobj, he]⟩

/-- A key present in the accumulator stays present through the loop. -/
theorem processArtifactsLoop_preserves (w : World) (l : List ArtifactRef)
    (n : String) :
    ∀ acc m, (processArtifactsLoop w acc l).1 = .ok m →
      jsGet acc n ≠ none → jsGet m n ≠ none := by
  induction l with
  | nil =>
    intro acc m h hacc
    cases h
    exact hacc
  | cons a t ih =>
    intro acc m h hacc
    rcases hobj : w.getObject a.location.s3Location with e | obj
    · rw [show processArtifactsLoop w acc (a :: t) =
          (.error e, [Call.fetch a.location.s3Location]) from by
        simp [processArtifactsLoop, hobj]] at h
      cases h
    · have hstep : (processArtifactsLoop w acc (a :: t)).1 =
          (processArtifactsLoop w (jsAssign acc a.name
            { data := obj.body, metadata := obj.metadata,
              contentType := obj.contentType }) t).1 := by
        simp [processArtifactsLoop, hobj]
      rw [hstep] at h
      refine ih _ m h ?_
      rw [jsGet_jsAssign]
      by_cases hn : n = a.name
      · simp [hn]
      · simp [hn]; exact hacc

/-- Every fetched reference has an entry in the final mapping. -/
theorem processArtifactsLoop_covers (w : World) (l : List ArtifactRef) :
    ∀ acc m, (processArtifactsLoop w acc l).1 = .ok m →
      ∀ a ∈ l, jsGet m a.name ≠ none := by
  induction l with
  | nil => intro acc m _ a ha; cases ha
  | cons a t ih =>
    intro acc m h b hb
    rcases hobj : w.getObject a.location.s3Location with e | obj
    · rw [show processArtifactsLoop w acc (a :: t) =
          (.error e, [Call.fetch a.location.s3Location]) from by
        simp [processArtifactsLoop, hobj]] at h
      cases h
    · have hstep : (processArtifactsLoop w acc (a :: t)).1 =
          (processArtifactsLoop w (jsAssign acc a.name
            { data := obj.body, metadata := obj.metadata,
              contentType := obj.contentType }) t).1 := by
        simp [processArtifactsLoop, hobj]
      rw [hstep] at h
      rcases List.mem_cons.mp hb with rfl | hbt
      · refine processArtifactsLoop_preserves w t b.name _ m h ?_
        rw [jsGet_jsAssign]
        simp
      · exact ih _ m h b hbt

/-- Claim C8: artifact resolution is all-or-nothing.  When every fetch
succeeds the resolver returns a mapping with an entry for each
reference name; when any fetch fails the whole resolve returns an
error, which carries no mapping at all. -/
theorem processArtifacts_all_or_nothing (w : World) (refs : List ArtifactRef) :
    ((∀ a ∈ refs, fetchOk w a = true) →
      ∃ m, (processArtifacts w refs).1 = .ok m ∧
        ∀ a ∈ refs, jsGet m a.name ≠ none) ∧
    ((∃ a ∈ refs, fetchOk w a = false) →
      ∃ e, (processArtifacts w refs).1 = .error e) := by
  constructor
  · intro hok
    obtain ⟨m, hm⟩ := processArtifactsLoop_allOk w refs hok []
    have hpa : processArtifacts w refs =
        (.ok m, refs.map fun a => Call.fetch a.location.s3Location) := hm
    exact ⟨m, by rw [hpa], processArtifactsLoop_covers w refs [] m (by rw [hm])⟩
  · intro hbad
    exact processArtifactsLoop_someFail w refs hbad []

/-- The all-success world whose object fetches fail. -/
def fetchFailWorld : World :=
  { okWorld with getObject := fun _ => .error "NoSuchKey" }

/-- Witness for the C8 theorem: both branches instantiated at the
sample input artifact list. -/
theorem processArtifacts_all_or_nothing_witness :
    (∃ m, (processArtifacts okWorld sampleJob.data.inputArtifacts).1 = .ok m ∧
      ∀ a ∈ sampleJob.data.inputArtifacts, jsGet m a.name ≠ none) ∧
    (∃ e, (processArtifacts fetchFailWorld sampleJob.data.inputArtifacts).1 = .error e) :=
  ⟨(processArtifacts_all_or_nothing okWorld sampleJob.data.inputArtifacts).1 (by decide),
   (processArtifacts_all_or_nothing fetchFailWorld sampleJob.data.inputArtifacts).2
     ⟨{ name := "BuildArtifact",
        location := { s3Location := { bucketName := "bkt", objectKey := "key" } } },
      by decide, by decide⟩⟩

/-- A name carried by none of the references resolves through the loop
exactly as it did in the starting accumulator. -/
theorem processArtifactsLoop_absent (w : World) (l : List ArtifactRef)
    (n : String) (hn : ∀ a ∈ l, a.name ≠ n) :
    ∀ acc m, (processArtifactsLoop w acc l).1 = .ok m →
      jsGet m n = jsGet acc n := by
  induction l with
  | nil =>
    intro acc m h
    cases h
    rfl
  | cons a t ih =>
    intro acc m h
    rcases hobj : w.getObject a.location.s3Location with e | obj
    · rw [show processArtifactsLoop w acc (a :: t) =
          (.error e, [Call.fetch a.location.s3Location]) from by
        simp [processArtifactsLoop, hobj]] at h
      cases h
    · have hstep : (processArtifactsLoop w acc (a :: t)).1 =
          (processArtifactsLoop w (jsAssign acc a.name
            { data := obj.body, metadata := obj.metadata,
              contentType := obj.contentType }) t).1 := by
        simp [processArtifactsLoop, hobj]
      rw [hstep] at h
      rw [ih (fun b hb => hn b (List.mem_cons_of_mem a hb)) _ m h,
        jsGet_jsAssign, if_neg (Ne.symm (hn a (List.mem_cons_self a t)))]

/-- Claim C6: dispatching the function-update or the static-artifact
backend with a mapping carrying neither BuildArtifact nor SourceOutput
fails with the missing-artifact error (which the static-artifact
backend wraps in its deployment-failed prefix), and for a job whose
input names avoid both artifact names the orchestrator then attempts
exactly one failure report and no success report. -/
theorem missingArtifact_fails_and_reports :
    (∀ (w : World) (config : List (String × String))
       (artifacts : List (String × ArtifactPayload)),
      jsGet artifacts "BuildArtifact" = none →
      jsGet artifacts "SourceOutput" = none →
      (deployToLambda w config artifacts).1 =
        .error "No application artifact found for Lambda deployment" ∧
      (deployToS3 w config artifacts).1 =
        .error ("S3 deployment failed: " ++
          "No application artifact found for S3 deployment")) ∧
    (∀ (env : EnvVars) (w : World) (job : CPJob),
      (jsGet (getDeploymentConfig env job.data) "deploymentType" = some "lambda" ∨
       jsGet (getDeploymentConfig env job.data) "deploymentType" = some "s3") →
      (∀ a ∈ job.data.inputArtifacts, fetchOk w a = true) →
      (∀ a ∈ job.data.inputArtifacts,
        a.name ≠ "BuildArtifact" ∧ a.name ≠ "SourceOutput") →
      countSuccess (handler env w { codePipelineJob := some job }).2 = 0 ∧
      countFailure (handler env w { codePipelineJob := some job }).2 = 1) := by
  constructor
  · intro w config artifacts hb hs
    have ho : (jsGet artifacts "BuildArtifact").orElse
        (fun _ => jsGet artifacts "SourceOutput") = none := by
      rw [hb, hs]; rfl
    exact ⟨by simp [deployToLambda, ho], by simp [deployToS3, ho]⟩
  · intro env w job htype hok hnames
    obtain ⟨m, hm⟩ := processArtifactsLoop_allOk w job.data.inputArtifacts hok []
    have hpa : processArtifacts w job.data.inputArtifacts =
        (.ok m, job.data.inputArtifacts.map fun a => Call.fetch a.location.s3Location) := hm
    have hb : jsGet m "BuildArtifact" = none := by
      have := processArtifactsLoop_absent w job.data.inputArtifacts "BuildArtifact"
        (fun a ha => (hnames a ha).1) [] m (by rw [hm])
      simpa [jsGet] using this
    have hs' : jsGet m "SourceOutput" = none := by
      have := processArtifactsLoop_absent w job.data.inputArtifacts "SourceOutput"
        (fun a ha => (hnames a ha).2) [] m (by rw [hm])
      simpa [jsGet] using this
    have ho : (jsGet m "BuildArtifact").orElse
        (fun _ => jsGet m "SourceOutput") = none := by
      rw [hb, hs']; rfl
    rcases htype with ht | ht
    · have hexec : executeDeployment w (getDeploymentConfig env job.data) m =
          (.error "No application artifact found for Lambda deployment", []) := by
        simp [executeDeployment, ht, deployToLambda, ho]
      have hpipe : pipeline env w job =
          (.error "No application artifact found for Lambda deployment",
           job.data.inputArtifacts.map fun a => Call.fetch a.location.s3Location) := by
        simp only [pipeline]
        rw [hpa]
        simp [hexec]
      exact counts_of_pipeline_error env w job _ _ hpipe
    · have hexec : executeDeployment w (getDeploymentConfig env job.data) m =
          (.error ("S3 deployment failed: " ++
            "No application artifact found for S3 deployment"), []) := by
        simp [executeDeployment, ht, deployToS3, ho]
      have hpipe : pipeline env w job =
          (.error ("S3 deployment failed: " ++
            "No application artifact found for S3 deployment"),
           job.data.inputArtifacts.map fun a => Call.fetch a.location.s3Location) := by
        simp only [pipeline]
        rw [hpa]
        simp [hexec]
      exact counts_of_pipeline_error env w job _ _ hpipe

/-- A job whose single input artifact has neither of the two accepted
names. -/
def wrongNameJob : CPJob :=
  { id := "job-3",
    data := { inputArtifacts :=
                [{ name := "OtherArtifact",
                   location := { s3Location := { bucketName := "bkt", objectKey := "key" } } }],
              outputArtifacts := [],
              actionConfiguration := some { configuration := some [] } } }

/-- Witness for the C6 theorem: both halves at concrete inputs. -/
theorem missingArtifact_fails_and_reports_witness :
    ((deployToLambda okWorld [] []).1 =
        .error "No application artifact found for Lambda deployment" ∧
      (deployToS3 okWorld [] []).1 =
        .error ("S3 deployment failed: " ++
          "No application artifact found for S3 deployment")) ∧
    (countSuccess (handler defaultEnv okWorld
        { codePipelineJob := some wrongNameJob }).2 = 0 ∧
     countFailure (handler defaultEnv okWorld
        { codePipelineJob := some wrongNameJob }).2 = 1) :=
  ⟨missingArtifact_fails_and_reports.1 okWorld [] [] (by rfl) (by rfl),
   missingArtifact_fails_and_reports.2 defaultEnv okWorld wrongNameJob
     (Or.inl (by decide)) (by decide) (by decide)⟩

/-- Every declared output location has been written once the
output-artifact writer returns successfully. -/
theorem updateOutputArtifacts_ok_writes (w : World) (r : DeploymentResult) :
    ∀ outs, (updateOutputArtifacts w outs r).1 = .ok () →
      ∀ a ∈ outs, Call.putOutput a.location.s3Location
        { deploymentResult := r, timestamp := w.nowIso, status := "SUCCESS" } ∈
        (updateOutputArtifacts w outs r).2 := by
  intro outs
  induction outs with
  | nil => intro _ a ha; cases ha
  | cons a t ih =>
    intro h b hb
    rcases hp : w.putObject a.location.s3Location
        { deploymentResult := r, timestamp := w.nowIso, status := "SUCCESS" }
        with e | u
    · rw [show updateOutputArtifacts w (a :: t) r =
          (.error e, [Call.putOutput a.location.s3Location
            { deploymentResult := r, timestamp := w.nowIso, status := "SUCCESS" }])
          from by simp [updateOutputArtifacts, hp]] at h
      cases h
    · have hstep : updateOutputArtifacts w (a :: t) r =
          ((updateOutputArtifacts w t r).1,
           Call.putOutput a.location.s3Location
             { deploymentResult := r, timestamp := w.nowIso, status := "SUCCESS" } ::
             (updateOutputArtifacts w t r).2) := by
        simp [updateOutputArtifacts, hp]
      rw [hstep] at h ⊢
      rcases List.mem_cons.mp hb with rfl | hbt
      · exact List.mem_cons_self _ _
      · exact List.mem_cons_of_mem _ (ih h b hbt)

/-- Decomposition of a successful pipeline run: artifact resolution and
dispatch both succeeded with the returned result, and the summary for
that result was written to every declared output location inside the
pipeline trace. -/
theorem pipeline_ok_elim (env : EnvVars) (w : World) (job : CPJob)
    (r : DeploymentResult) (tr0 : List Call)
    (hp : pipeline env w job = (.ok r, tr0)) :
    (∃ m, (processArtifacts w job.data.inputArtifacts).1 = .ok m ∧
      (executeDeployment w (getDeploymentConfig env job.data) m).1 = .ok r) ∧
    ∀ a ∈ job.data.outputArtifacts,
      Call.putOutput a.location.s3Location
        { deploymentResult := r, timestamp := w.nowIso, status := "SUCCESS" } ∈ tr0 := by
  simp only [pipeline] at hp
  rcases hpa : processArtifacts w job.data.inputArtifacts with ⟨res1, tr1⟩
  rw [hpa] at hp
  cases res1 with
  | error e => simp at hp
  | ok m =>
    dsimp only at hp
    rcases hex : executeDeployment w (getDeploymentConfig env job.data) m
        with ⟨res2, tr2⟩
    rw [hex] at hp
    cases res2 with
    | error e => simp at hp
    | ok r2 =>
      dsimp only at hp
      by_cases hout : job.data.outputArtifacts.length > 0
      · rw [if_pos hout] at hp
        rcases hup : updateOutputArtifacts w job.data.outputArtifacts r2
            with ⟨res3, tr3⟩
        rw [hup] at hp
        cases res3 with
        | error e => simp at hp
        | ok u =>
          dsimp only at hp
          rw [Prod.mk.injEq] at hp
          obtain ⟨hr, htr⟩ := hp
          rw [Except.ok.injEq] at hr
          subst hr
          subst htr
          refine ⟨⟨m, rfl, by rw [hex]⟩, ?_⟩
          intro a ha
          obtain ⟨⟩ := u
          have hmem := updateOutputArtifacts_ok_writes w r2
            job.data.outputArtifacts (by rw [hup]) a ha
          rw [hup] at hmem
          exact List.mem_append_right _ hmem
      · rw [if_neg hout] at hp
        rw [Prod.mk.injEq] at hp
        obtain ⟨hr, htr⟩ := hp
        rw [Except.ok.injEq] at hr
        subst hr
        subst htr
        refine ⟨⟨m, rfl, by rw [hex]⟩, ?_⟩
        have hnil : job.data.outputArtifacts = [] :=
          List.length_eq_zero.mp (by omega)
        rw [hnil]
        intro a ha
        cases ha

/-- Claim C7: on the success path, the summary object carrying the
deployment result, a timestamp and the status tag SUCCESS has been
written to every declared output-artifact location before the success
report is attempted; and when any summary write fails the job is
reported with exactly one failure report and no success report. -/
theorem summary_writes_on_success (env : EnvVars) (w : World) (job : CPJob) :
    (∀ resp, (handler env w { codePipelineJob := some job }).1 = .ok resp →
      ∃ pre vars,
        (handler env w { codePipelineJob := some job }).2 =
          pre ++ [Call.reportSuccess job.id vars] ∧
        ∀ a ∈ job.data.outputArtifacts,
          Call.putOutput a.location.s3Location
            { deploymentResult := resp.result, timestamp := w.nowIso,
              status := "SUCCESS" } ∈ pre) ∧
    (∀ e r m,
      (processArtifacts w job.data.inputArtifacts).1 = .ok m →
      (executeDeployment w (getDeploymentConfig env job.data) m).1 = .ok r →
      0 < job.data.outputArtifacts.length →
      (updateOutputArtifacts w job.data.outputArtifacts r).1 = .error e →
      countSuccess (handler env w { codePipelineJob := some job }).2 = 0 ∧
      countFailure (handler env w { codePipelineJob := some job }).2 = 1) := by
  constructor
  · intro resp hresp
    rcases hp : pipeline env w job with ⟨res, tr0⟩
    cases res with
    | error e =>
      have ht : tryBody env w job = (.error e, tr0) := by simp [tryBody, hp]
      rcases hf : w.putJobFailureResult job.id { message := e, type := "JobFailed" }
          with e2 | u <;> simp [handler, ht, hf] at hresp
    | ok r =>
      rcases hs : w.putJobSuccessResult job.id (mkOutputVariables w r) with e | u
      · have ht : tryBody env w job =
            (.error e, tr0 ++ [Call.reportSuccess job.id (mkOutputVariables w r)]) := by
          simp [tryBody, hp, hs]
        rcases hf : w.putJobFailureResult job.id { message := e, type := "JobFailed" }
            with e2 | u <;> simp [handler, ht, hf] at hresp
      · have ht : tryBody env w job =
            (.ok { statusCode := 200, jobId := job.id, result := r },
             tr0 ++ [Call.reportSuccess job.id (mkOutputVariables w r)]) := by
          simp [tryBody, hp, hs]
        have hres : (handler env w { codePipelineJob := some job }).1 =
            .ok { statusCode := 200, jobId := job.id, result := r } := by
          simp [handler, ht]
        have htr := handler_trace_of_success env w job r tr0 u hp hs
        rw [hres, Except.ok.injEq] at hresp
        refine ⟨tr0, mkOutputVariables w r, htr, ?_⟩
        intro a ha
        have hmem := (pipeline_ok_elim env w job r tr0 hp).2 a ha
        rw [← hresp]
        simpa using hmem
  · intro e r m hpa1 hex1 hlen hup1
    rcases hpa : processArtifacts w job.data.inputArtifacts with ⟨res1, tr1⟩
    rw [hpa] at hpa1
    simp at hpa1
    subst hpa1
    rcases hex : executeDeployment w (getDeploymentConfig env job.data) m
        with ⟨res2, tr2⟩
    rw [hex] at hex1
    simp at hex1
    subst hex1
    rcases hup : updateOutputArtifacts w job.data.outputArtifacts r
        with ⟨res3, tr3⟩
    rw [hup] at hup1
    simp at hup1
    subst hup1
    have hpipe : pipeline env w job = (.error e, tr1 ++ tr2 ++ tr3) := by
      simp only [pipeline]
      rw [hpa]
      simp [hex, hlen, hup]
    exact counts_of_pipeline_error env w job e _ hpipe

/-- The deployment result the function-update backend produces in the
all-success world. -/
def lambdaOkResult : DeploymentResult :=
  { type := "lambda", functionArn := some "arn:aws:lambda:fn",
    version := some "7", lastModified := some "2026-01-01" }

/-- The sample job extended with one declared output artifact. -/
def outJob : CPJob :=
  { id := "job-out",
    data := { inputArtifacts :=
                [{ name := "BuildArtifact",
                   location := { s3Location := { bucketName := "bkt", objectKey := "key" } } }],
              outputArtifacts :=
                [{ name := "DeployOutput",
                   location := { s3Location := { bucketName := "obkt", objectKey := "okey" } } }],
              actionConfiguration := some { configuration := some [] } } }

/-- The all-success world whose summary writes fail. -/
def putFailWorld : World :=
  { okWorld with putObject := fun _ _ => .error "write denied" }

/-- Witness for the C7 theorem: both halves at the output-declaring job. -/
theorem summary_writes_on_success_witness :
    (∃ pre vars,
      (handler defaultEnv okWorld { codePipelineJob := some outJob }).2 =
        pre ++ [Call.reportSuccess outJob.id vars] ∧
      ∀ a ∈ outJob.data.outputArtifacts,
        Call.putOutput a.location.s3Location
          { deploymentResult := lambdaOkResult, timestamp := okWorld.nowIso,
            status := "SUCCESS" } ∈ pre) ∧
    (countSuccess (handler defaultEnv putFailWorld
        { codePipelineJob := some outJob }).2 = 0 ∧
     countFailure (handler defaultEnv putFailWorld
        { codePipelineJob := some outJob }).2 = 1) :=
  ⟨(summary_writes_on_success defaultEnv okWorld outJob).1
     { statusCode := 200, jobId := "job-out", result := lambdaOkResult } (by rfl),
   (summary_writes_on_success defaultEnv putFailWorld outJob).2
     "write denied" lambdaOkResult sampleArtifacts (by rfl) (by rfl) (by decide) (by rfl)⟩

/-- A successful function-update dispatch is tagged lambda. -/
theorem deployToLambda_ok_type (w : World) (config : List (String × String))
    (artifacts : List (String × ArtifactPayload)) (r : DeploymentResult)
    (h : (deployToLambda w config artifacts).1 = .ok r) : r.type = "lambda" := by
  rcases hl : (jsGet artifacts "BuildArtifact").orElse
      (fun _ => jsGet artifacts "SourceOutput") with _ | app
  · simp [deployToLambda, hl] at h
  · rcases hc : w.updateFunctionCode (jsGet config "targetFunction") app.data
        with e | ur
    · simp [deployToLambda, hl, hc] at h
    · rcases hw : w.waitFunctionUpdated (jsGet config "targetFunction") with e | u
      · simp [deployToLambda, hl, hc, hw] at h
      · by_cases he : jsGet config "environment" ≠ some "production"
        · rcases hcf : w.updateFunctionConfiguration (jsGet config "targetFunction")
              with e | u2
          · simp [deployToLambda, hl, hc, hw, he, hcf] at h
          · simp [deployToLambda, hl, hc, hw, he, hcf] at h
            subst h
            rfl
        · simp [deployToLambda, hl, hc, hw, he] at h
          subst h
          rfl

/-- A successful container-service dispatch is tagged ecs and carries
no version field. -/
theorem deployToECS_ok_shape (w : World) (config : List (String × String))
    (artifacts : List (String × ArtifactPayload)) (r : DeploymentResult)
    (h : (deployToECS w config artifacts).1 = .ok r) :
    r.type = "ecs" ∧ r.version = none := by
  rcases hu : w.updateService (jsOr (jsGet config "clusterName") "default")
      (jsGet config "serviceName") with e | res
  · simp [deployToECS, hu] at h
  · simp [deployToECS, hu] at h
    subst h
    exact ⟨rfl, rfl⟩

/-- A successful static-artifact dispatch is tagged s3 and carries no
version field. -/
theorem deployToS3_ok_shape (w : World) (config : List (String × String))
    (artifacts : List (String × ArtifactPayload)) (r : DeploymentResult)
    (h : (deployToS3 w config artifacts).1 = .ok r) :
    r.type = "s3" ∧ r.version = none := by
  rcases hl : (jsGet artifacts "BuildArtifact").orElse
      (fun _ => jsGet artifacts "SourceOutput") with _ | app
  · simp [deployToS3, hl] at h
  · rcases hu : w.s3UploadCall (jsGet config "bucketName") (s3DeployKey w.now)
        app.data with e | res
    · simp [deployToS3, hl, hu] at h
    · simp [deployToS3, hl, hu] at h
      subst h
      exact ⟨rfl, rfl⟩

/-- A successful dispatch tagged ecs or s3 has no version field. -/
theorem executeDeployment_version_none (w : World)
    (config : List (String × String))
    (artifacts : List (String × ArtifactPayload)) (r : DeploymentResult)
    (h : (executeDeployment w config artifacts).1 = .ok r)
    (ht : r.type = "ecs" ∨ r.type = "s3") : r.version = none := by
  rcases hg : jsGet config "deploymentType" with _ | t
  · simp [executeDeployment, hg] at h
  · by_cases h1 : t = "lambda"
    · have hty : r.type = "lambda" := deployToLambda_ok_type w config artifacts r
        (by simpa [executeDeployment, hg, h1] using h)
      rcases ht with ht | ht <;> rw [hty] at ht <;> exact absurd ht (by decide)
    · by_cases h2 : t = "ecs"
      · exact (deployToECS_ok_shape w config artifacts r
          (by simpa [executeDeployment, hg, h1, h2] using h)).2
      · by_cases h3 : t = "s3"
        · exact (deployToS3_ok_shape w config artifacts r
            (by simpa [executeDeployment, hg, h1, h2, h3] using h)).2
        · simp [executeDeployment, hg, h1, h2, h3] at h

/-- Claim C10 (amended): every success report carries the job id and
output variables built from the dispatch result: deploymentStatus is
always SUCCESS, and deployedVersion is the result version when that
field is present and nonempty and the string unknown when it is absent
or the empty string (JS falsy).  Results tagged ecs or s3 carry no
version field, so those backends always report unknown. -/
theorem reportSuccess_vars_shape (env : EnvVars) (w : World) (job : CPJob)
    (jid : String) (vars : OutputVariables)
    (h : Call.reportSuccess jid vars ∈
      (handler env w { codePipelineJob := some job }).2) :
    jid = job.id ∧
    ∃ r, (pipeline env w job).1 = .ok r ∧
      vars = mkOutputVariables w r ∧
      vars.deploymentStatus = "SUCCESS" ∧
      vars.deployedVersion = jsOr r.version "unknown" ∧
      ((r.type = "ecs" ∨ r.type = "s3") → r.version = none) := by
  have hnr := pipeline_noReport env w job
  rcases hp : pipeline env w job with ⟨res, tr0⟩
  rw [hp] at hnr
  cases res with
  | error e =>
    rw [handler_trace_of_pipeline_error env w job e tr0 hp] at h
    rcases List.mem_append.mp h with h | h
    · exact absurd h (reportSuccess_not_mem hnr.1 jid vars)
    · simp at h
  | ok r =>
    have hbuild : jid = job.id ∧ vars = mkOutputVariables w r →
        jid = job.id ∧
        ∃ r2, ((Except.ok r, tr0) :
            Except String DeploymentResult × List Call).1 = .ok r2 ∧
          vars = mkOutputVariables w r2 ∧
          vars.deploymentStatus = "SUCCESS" ∧
          vars.deployedVersion = jsOr r2.version "unknown" ∧
          ((r2.type = "ecs" ∨ r2.type = "s3") → r2.version = none) := by
      rintro ⟨hjid, hvars⟩
      refine ⟨hjid, r, rfl, hvars, by rw [hvars]; rfl, by rw [hvars]; rfl, ?_⟩
      obtain ⟨⟨m, _, hm2⟩, _⟩ := pipeline_ok_elim env w job r tr0 hp
      exact fun ht => executeDeployment_version_none w
        (getDeploymentConfig env job.data) m r hm2 ht
    rcases hs : w.putJobSuccessResult job.id (mkOutputVariables w r) with e | u
    · rw [handler_trace_of_successReportFail env w job r tr0 e hp hs] at h
      rcases List.mem_append.mp h with h | h
      · rcases List.mem_append.mp h with h | h
        · exact absurd h (reportSuccess_not_mem hnr.1 jid vars)
        · simp at h
          exact hbuild h
      · simp at h
    · rw [handler_trace_of_success env w job r tr0 u hp hs] at h
      rcases List.mem_append.mp h with h | h
      · exact absurd h (reportSuccess_not_mem hnr.1 jid vars)
      · simp at h
        exact hbuild h

/-- Witness for the amended C10 theorem at the sample job. -/
theorem reportSuccess_vars_shape_witness :
    "job-1" = sampleJob.id ∧
    ∃ r, (pipeline defaultEnv okWorld sampleJob).1 = .ok r ∧
      ({ deploymentStatus := "SUCCESS",
         deploymentTime := "2026-01-01T00:00:00.000Z",
         deployedVersion := "7" } : OutputVariables) = mkOutputVariables okWorld r ∧
      ({ deploymentStatus := "SUCCESS",
         deploymentTime := "2026-01-01T00:00:00.000Z",
         deployedVersion := "7" } : OutputVariables).deploymentStatus = "SUCCESS" ∧
      ({ deploymentStatus := "SUCCESS",
         deploymentTime := "2026-01-01T00:00:00.000Z",
         deployedVersion := "7" } : OutputVariables).deployedVersion =
        jsOr r.version "unknown" ∧
      ((r.type = "ecs" ∨ r.type = "s3") → r.version = none) :=
  reportSuccess_vars_shape defaultEnv okWorld sampleJob "job-1"
    { deploymentStatus := "SUCCESS",
      deploymentTime := "2026-01-01T00:00:00.000Z",
      deployedVersion := "7" } (by decide)

/-- The all-success world whose code update reports an empty Version. -/
def emptyVersionWorld : World :=
  { okWorld with updateFunctionCode := fun _ _ => Except.ok ⟨"arn", "", "lm"⟩ }

/-- Claim C10 counterexample: a deployment result whose version field
is present but equal to the empty string is reported as unknown, so
deployedVersion does not equal the version field whenever that field is
present. -/
theorem reportSuccess_emptyVersion_counterexample :
    (pipeline defaultEnv emptyVersionWorld sampleJob).1 =
      .ok { type := "lambda", functionArn := some "arn",
            version := some "", lastModified := some "lm" } ∧
    Call.reportSuccess "job-1"
      { deploymentStatus := "SUCCESS",
        deploymentTime := "2026-01-01T00:00:00.000Z",
        deployedVersion := "unknown" } ∈
      (handler defaultEnv emptyVersionWorld { codePipelineJob := some sampleJob }).2 := by
  refine ⟨by rfl, by decide⟩

end LambdaDeploy
